import Mathlib

/-!
Verification of `exportSurvivalData.py`: the survival-assay export pipeline
that filters a raw spreadsheet table by temperature condition, optional sex
and exclusion flags, and then expands per-day death counts into a long-format
table for plotting.

The embedding models a pandas dataframe as a `Table`: an ordered list of
column names together with a list of rows, where each row is an association
list from column names to cell values.  Numeric cells are rationals (pandas
floats), string cells are strings, and `blank` models a missing value (NaN),
which pandas sums skip.  Fallible dataframe operations (missing column
access) are modelled with `Except`.
-/

/-- A single cell of the table: a numeric value (rational, modelling the
floats pandas reads), a string value, or a blank/missing value (NaN). -/
inductive Cell where
  | num (q : ℚ)
  | str (s : String)
  | blank
deriving DecidableEq, Repr

/-- A row is an association list from column names to cells. -/
abbrev Row := List (String × Cell)

/-- An in-memory table: ordered column names plus rows. -/
structure Table where
  cols : List String
  rows : List Row
deriving DecidableEq, Repr

/-- Access a row's cell by column name (first matching entry); missing
entries read as blank (NaN). -/
def getCell (r : Row) (cn : String) : Cell :=
  (r.lookup cn).getD Cell.blank

/-- `matchesAt pat text` is true when `pat` occurs at the very start of
`text` (character lists). -/
def matchesAt : List Char → List Char → Bool
  | [], _ => true
  | _ :: _, [] => false
  | p :: ps, t :: ts => p == t && matchesAt ps ts

/-- `containsSub text pat` is true when `pat` occurs as a contiguous
substring of `text` (character lists); models Python `pat in text`. -/
def containsSub : List Char → List Char → Bool
  | [], pat => matchesAt pat []
  | t :: ts, pat => matchesAt pat (t :: ts) || containsSub ts pat

/-- Models Python `'eggs' in cn`. -/
def hasEggs (cn : String) : Bool :=
  containsSub cn.data "eggs".data

/-- Models Python `cn.startswith('Day')`. -/
def startsDay (cn : String) : Bool :=
  matchesAt "Day".data cn.data

/-- Last character of a string, models Python `s[-1]` (day names always
start with "Day", so they are nonempty and the default is never used). -/
def lastChar (s : String) : Char :=
  s.data.getLastD ' '

/-- `lowTemp = 23` from the script's module-level constants. -/
def lowTemp : Int := 23

/-- `midTemp = 30` from the script's module-level constants. -/
def midTemp : Int := 30

/-- `highTemp = 37` from the script's module-level constants. -/
def highTemp : Int := 37

/-- The column names kept by `filter_datatable`: every column of the raw
table whose name does not contain the substring "eggs". -/
def eggsFreeCols (cols : List String) : List String :=
  cols.filter (fun cn => !(hasEggs cn))

/-- The boolean row predicate of `filter_datatable` for one temperature:
`sexIDX & keepIDX & (datatable.temp == t)` from the source. -/
def rowKeep (datatable : Table) (wormSex : Option String) (t : Int) (r : Row) : Bool :=
  (match wormSex with
   | none => true
   | some s => getCell r "sex" == Cell.str s)
  && (if datatable.cols.contains "exclude" then !(getCell r "exclude" == Cell.num 1) else true)
  && (getCell r "temp" == Cell.num (t : ℚ))

/-- Restrict a row to the given columns, in order; models the pandas
column selection `df[columnNames]` applied to one row. -/
def selectCols (cols : List String) (r : Row) : Row :=
  cols.map (fun cn => (cn, getCell r cn))

/-- `datatable[(sexIDX & keepIDX & temp == t)][columnNames]` for one
temperature `t`: keep matching rows and restrict to the eggs-free columns. -/
def selectTemp (datatable : Table) (wormSex : Option String) (t : Int) : Table :=
  { cols := eggsFreeCols datatable.cols,
    rows := (datatable.rows.filter (fun r => rowKeep datatable wormSex t r)).map
      (selectCols (eggsFreeCols datatable.cols)) }

/-- `filter_datatable(datatable, wormSex)`: drops eggs-columns and returns
the three per-temperature tables.  Accessing `datatable.sex` (only when a
sex filter is requested) or `datatable.temp` on a table lacking that column
raises in pandas; this is modelled as an error. -/
def filter_datatable (datatable : Table) (wormSex : Option String) :
    Except String (Table × Table × Table) :=
  if wormSex.isSome && !(datatable.cols.contains "sex") then
    .error "FilterError: no sex column"
  else if !(datatable.cols.contains "temp") then
    .error "FilterError: no temp column"
  else
    .ok (selectTemp datatable wormSex lowTemp,
         selectTemp datatable wormSex midTemp,
         selectTemp datatable wormSex highTemp)

/-- A cell as a numeric summand: numbers are themselves, blanks (NaN) are
skipped by pandas `.sum()` so they contribute 0, and string cells cannot be
summed numerically (`ExpansionError`). -/
def cellToQ : Cell → Except String ℚ
  | Cell.num q => .ok q
  | Cell.blank => .ok 0
  | Cell.str _ => .error "ExpansionError: non-numeric cell"

/-- Numeric sum of a list of cells. -/
def sumCells : List Cell → Except String ℚ
  | [] => .ok 0
  | c :: cs =>
    match cellToQ c with
    | .error e => .error e
    | .ok q =>
      match sumCells cs with
      | .error e => .error e
      | .ok s => .ok (q + s)

/-- `df[cn]`: the column's cells, or an error when the column is absent
(pandas KeyError). -/
def getColumn (t : Table) (cn : String) : Except String (List Cell) :=
  if t.cols.contains cn then .ok (t.rows.map (fun r => getCell r cn))
  else .error "ExpansionError: missing day column"

/-- `df[cn].sum()` with the pandas default of skipping NaN. -/
def sumColumn (t : Table) (cn : String) : Except String ℚ :=
  match getColumn t cn with
  | .error e => .error e
  | .ok cells => sumCells cells

attribute [local semireducible] Rat.add

/-- Python `int(q)`: truncation toward zero, i.e. T-division of the reduced
numerator by the (positive) denominator. -/
def truncQ (q : ℚ) : Int :=
  q.num.tdiv (q.den : Int)

/-- The day-columns of a table: every column name starting with "Day", in
table order. -/
def dayCols (t : Table) : List String :=
  t.cols.filter (fun cn => startsDay cn)

/-- The output row `[day[-1], 1, '', '']` appended for a low-temperature
count. -/
def lowRow (day : String) : Row :=
  [("time", Cell.str (String.singleton (lastChar day))),
   (toString lowTemp, Cell.num 1),
   (toString midTemp, Cell.str ""),
   (toString highTemp, Cell.str "")]

/-- The output row `[day[-1], '', 1, '']` appended for a mid-temperature
count. -/
def midRow (day : String) : Row :=
  [("time", Cell.str (String.singleton (lastChar day))),
   (toString lowTemp, Cell.str ""),
   (toString midTemp, Cell.num 1),
   (toString highTemp, Cell.str "")]

/-- The output row `[day[-1], '', '', 1]` appended for a high-temperature
count. -/
def highRow (day : String) : Row :=
  [("time", Cell.str (String.singleton (lastChar day))),
   (toString lowTemp, Cell.str ""),
   (toString midTemp, Cell.str ""),
   (toString highTemp, Cell.num 1)]

/-- All output rows emitted for one day-column: `int(lowdata[day].sum())`
low rows, then the mid rows, then the high rows. -/
def rowsForDay (lowdata middata highdata : Table) (day : String) :
    Except String (List Row) :=
  match sumColumn lowdata day with
  | .error e => .error e
  | .ok sLow =>
    match sumColumn middata day with
    | .error e => .error e
    | .ok sMid =>
      match sumColumn highdata day with
      | .error e => .error e
      | .ok sHigh =>
        .ok (List.replicate (truncQ sLow).toNat (lowRow day)
          ++ List.replicate (truncQ sMid).toNat (midRow day)
          ++ List.replicate (truncQ sHigh).toNat (highRow day))

/-- The main loop of `convert_datatable` over a list of day names. -/
def convertRows (lowdata middata highdata : Table) : List String → Except String (List Row)
  | [] => .ok []
  | day :: rest =>
    match rowsForDay lowdata middata highdata day with
    | .error e => .error e
    | .ok rs =>
      match convertRows lowdata middata highdata rest with
      | .error e => .error e
      | .ok rest' => .ok (rs ++ rest')

/-- Columns of the output table:
`['time', str(lowTemp), str(midTemp), str(highTemp)]`. -/
def newTableCols : List String :=
  ["time", toString lowTemp, toString midTemp, toString highTemp]

/-- `convert_datatable(lowdata, middata, highdata)`: expand the per-day
counts of the three filtered tables into the long-format output table. -/
def convert_datatable (lowdata middata highdata : Table) : Except String Table :=
  match convertRows lowdata middata highdata (dayCols lowdata) with
  | .error e => .error e
  | .ok rows => .ok { cols := newTableCols, rows := rows }

/-- The core of `main`: filter, then convert. -/
def runPipeline (datatable : Table) (wormSex : Option String) : Except String Table :=
  match filter_datatable datatable wormSex with
  | .error e => .error e
  | .ok (lowdata, middata, highdata) => convert_datatable lowdata middata highdata

/-- Example input row {temp=23, sex="F", exclude=0, Day3=2, Day4=1}. -/
def exRow1 : Row :=
  [("temp", Cell.num 23), ("sex", Cell.str "F"), ("exclude", Cell.num 0),
   ("Day3", Cell.num 2), ("Day4", Cell.num 1)]

/-- Example input row {temp=30, sex="F", exclude=0, Day3=1, Day4=0}. -/
def exRow2 : Row :=
  [("temp", Cell.num 30), ("sex", Cell.str "F"), ("exclude", Cell.num 0),
   ("Day3", Cell.num 1), ("Day4", Cell.num 0)]

/-- The example input table of the specification. -/
def exTable : Table :=
  { cols := ["temp", "sex", "exclude", "Day3", "Day4"], rows := [exRow1, exRow2] }

deriving instance DecidableEq for Except

/-- The low-temperature table of the filtered example input. -/
def exLow : Table := selectTemp exTable none lowTemp

/-- The mid-temperature table of the filtered example input. -/
def exMid : Table := selectTemp exTable none midTemp

/-- The high-temperature table of the filtered example input. -/
def exHigh : Table := selectTemp exTable none highTemp

/-- The expected expanded output of the example input. -/
def exOut : Table :=
  { cols := ["time", "23", "30", "37"],
    rows := [lowRow "Day3", lowRow "Day3", midRow "Day3", lowRow "Day4"] }

/-- The row-selection predicate in the words of the specification: keep a
row iff (sex matches the selector, or the selector is absent) and (the
exclude column is absent, or its value is not 1) and (the temp column
equals the given condition). -/
def specKeep (datatable : Table) (wormSex : Option String) (cond : Int) (r : Row) : Bool :=
  (wormSex.isNone || getCell r "sex" == Cell.str (wormSex.getD ""))
  && (!(datatable.cols.contains "exclude") || !(getCell r "exclude" == Cell.num 1))
  && (getCell r "temp" == Cell.num (cond : ℚ))

/-- Exactly one of the three condition-value columns holds 1 and the other
two hold the empty string. -/
def exactlyOneCond (r : Row) : Bool :=
  (getCell r (toString lowTemp) == Cell.num 1
    && getCell r (toString midTemp) == Cell.str ""
    && getCell r (toString highTemp) == Cell.str "")
  || (getCell r (toString lowTemp) == Cell.str ""
    && getCell r (toString midTemp) == Cell.num 1
    && getCell r (toString highTemp) == Cell.str "")
  || (getCell r (toString lowTemp) == Cell.str ""
    && getCell r (toString midTemp) == Cell.str ""
    && getCell r (toString highTemp) == Cell.num 1)

/-- The per-condition, per-day contribution to the output row count: the
column sum truncated to an integer, clamped at 0 (the sum is taken to be 0
when the column access fails, which never happens when expansion
succeeds). -/
def dayCount (t : Table) (day : String) : Nat :=
  (truncQ ((sumColumn t day).toOption.getD 0)).toNat

/-- A successful `filter_datatable` returns the three per-temperature
selections. -/
theorem filter_ok_eq {dt : Table} {ws : Option String} {l m h : Table}
    (hx : filter_datatable dt ws = .ok (l, m, h)) :
    l = selectTemp dt ws lowTemp ∧ m = selectTemp dt ws midTemp ∧
      h = selectTemp dt ws highTemp := by
  unfold filter_datatable at hx
  split at hx
  · cases hx
  · split at hx
    · cases hx
    · simp only [Except.ok.injEq, Prod.mk.injEq] at hx
      obtain ⟨h1, h2, h3⟩ := hx
      exact ⟨h1.symm, h2.symm, h3.symm⟩

/-- The code's row predicate agrees with the specification's row
predicate. -/
theorem rowKeep_eq_specKeep (dt : Table) (ws : Option String) (t : Int) (r : Row) :
    rowKeep dt ws t r = specKeep dt ws t r := by
  cases ws with
  | none => cases hc : dt.cols.contains "exclude" <;> simp [rowKeep, specKeep, hc]
  | some s => cases hc : dt.cols.contains "exclude" <;> simp [rowKeep, specKeep, hc]

/-- A successful `rowsForDay` is the three blocks of replicated rows, with
the block lengths given by the truncated column sums. -/
theorem rowsForDay_ok_eq {l m h : Table} {day : String} {rs : List Row}
    (hr : rowsForDay l m h day = .ok rs) :
    rs = List.replicate (dayCount l day) (lowRow day)
      ++ List.replicate (dayCount m day) (midRow day)
      ++ List.replicate (dayCount h day) (highRow day) := by
  unfold rowsForDay at hr
  cases hl : sumColumn l day with
  | error e => rw [hl] at hr; cases hr
  | ok sLow =>
    rw [hl] at hr
    cases hm : sumColumn m day with
    | error e => rw [hm] at hr; cases hr
    | ok sMid =>
      rw [hm] at hr
      cases hh : sumColumn h day with
      | error e => rw [hh] at hr; cases hr
      | ok sHigh =>
        rw [hh] at hr
        cases hr
        simp [dayCount, hl, hm, hh, Except.toOption]

/-- A successful `convertRows` is the concatenation, day by day, of the
per-day row blocks. -/
theorem convertRows_ok_eq {l m h : Table} {days : List String} {rows : List Row}
    (hr : convertRows l m h days = .ok rows) :
    rows = (days.map (fun day =>
      List.replicate (dayCount l day) (lowRow day)
        ++ List.replicate (dayCount m day) (midRow day)
        ++ List.replicate (dayCount h day) (highRow day))).flatten := by
  induction days generalizing rows with
  | nil =>
    unfold convertRows at hr
    cases hr
    rfl
  | cons day rest ih =>
    unfold convertRows at hr
    cases h1 : rowsForDay l m h day with
    | error e => rw [h1] at hr; cases hr
    | ok rs =>
      rw [h1] at hr
      cases h2 : convertRows l m h rest with
      | error e => rw [h2] at hr; cases hr
      | ok rest' =>
        rw [h2] at hr
        cases hr
        simp [rowsForDay_ok_eq h1, ih h2]

/-- A successful `convert_datatable` has the fixed output columns and the
concatenated per-day row blocks. -/
theorem convert_ok_eq {l m h out : Table}
    (hc : convert_datatable l m h = .ok out) :
    out.cols = newTableCols ∧
    out.rows = ((dayCols l).map (fun day =>
      List.replicate (dayCount l day) (lowRow day)
        ++ List.replicate (dayCount m day) (midRow day)
        ++ List.replicate (dayCount h day) (highRow day))).flatten := by
  unfold convert_datatable at hc
  cases h1 : convertRows l m h (dayCols l) with
  | error e => rw [h1] at hc; cases hc
  | ok rows =>
    rw [h1] at hc
    cases hc
    exact ⟨rfl, convertRows_ok_eq h1⟩

/-- The truncated per-day column sum as an integer (taken to be 0 when the
column sum fails, which never happens when expansion succeeds). -/
def truncSum (t : Table) (day : String) : Int :=
  truncQ ((sumColumn t day).toOption.getD 0)

/-- A successful expansion has as many output rows as the clamped truncated
sums say, over all day-columns and all three conditions. -/
theorem convert_ok_length {l m h out : Table}
    (hc : convert_datatable l m h = .ok out) :
    out.rows.length =
      ((dayCols l).map (fun day => dayCount l day + dayCount m day + dayCount h day)).sum := by
  obtain ⟨-, hrows⟩ := convert_ok_eq hc
  rw [hrows]
  induction dayCols l with
  | nil => rfl
  | cons day rest ih =>
    simp only [List.map_cons, List.flatten_cons, List.length_append, List.sum_cons,
      List.length_replicate, ih]

/-- When the truncated sum is non-negative, the emitted row count for that
condition and day equals the truncated sum itself. -/
theorem cast_dayCount {t : Table} {day : String} (hpos : 0 ≤ truncSum t day) :
    (dayCount t day : Int) = truncSum t day := by
  unfold truncSum at hpos
  unfold dayCount truncSum
  exact Int.toNat_of_nonneg hpos

/-- Casting the clamped row-count sum to the integers gives the sum of the
truncated sums, provided all truncated sums are non-negative. -/
theorem cast_counts_eq_truncSum {l m h : Table} {days : List String}
    (hpos : ∀ day ∈ days, 0 ≤ truncSum l day ∧ 0 ≤ truncSum m day ∧ 0 ≤ truncSum h day) :
    ((days.map (fun day => dayCount l day + dayCount m day + dayCount h day)).sum : Int) =
      (days.map (fun day => truncSum l day + truncSum m day + truncSum h day)).sum := by
  induction days with
  | nil => rfl
  | cons day rest ih =>
    obtain ⟨h1, h2, h3⟩ := hpos day (List.mem_cons_self day rest)
    have ihr := ih (fun d hd => hpos d (List.mem_cons_of_mem day hd))
    simp only [List.map_cons, List.sum_cons, Nat.cast_add, ihr,
      cast_dayCount h1, cast_dayCount h2, cast_dayCount h3]

/-- Claim C1: for every valid input table (all filtered per-day truncated
column sums non-negative), the number of rows in the expanded output table
equals the sum, over all day-columns and over all three conditions, of
that condition's filtered per-day column sum truncated to an integer. -/
theorem output_length_eq_counts {dt : Table} {ws : Option String} {l m h out : Table}
    (_hf : filter_datatable dt ws = .ok (l, m, h))
    (hc : convert_datatable l m h = .ok out)
    (hpos : ∀ day ∈ dayCols l,
      0 ≤ truncSum l day ∧ 0 ≤ truncSum m day ∧ 0 ≤ truncSum h day) :
    (out.rows.length : Int) =
      ((dayCols l).map (fun day => truncSum l day + truncSum m day + truncSum h day)).sum := by
  rw [convert_ok_length hc]
  exact cast_counts_eq_truncSum hpos

/-- Claim C1 witness at the example input. -/
theorem output_length_eq_counts_witness :
    (exOut.rows.length : Int) =
      ((dayCols exLow).map (fun day =>
        truncSum exLow day + truncSum exMid day + truncSum exHigh day)).sum :=
  @output_length_eq_counts exTable none exLow exMid exHigh exOut
    (by decide) (by decide) (by decide)

/-- Claim C2: every row of the expanded output table has exactly one of the
three condition-value columns set to 1 and the other two empty. -/
theorem output_rows_one_cond {l m h out : Table}
    (hc : convert_datatable l m h = .ok out) :
    ∀ r ∈ out.rows, exactlyOneCond r = true := by
  obtain ⟨-, hrows⟩ := convert_ok_eq hc
  rw [hrows]
  intro r hr
  rw [List.mem_flatten] at hr
  obtain ⟨block, hblock, hrblock⟩ := hr
  rw [List.mem_map] at hblock
  obtain ⟨day, -, rfl⟩ := hblock
  rcases List.mem_append.1 hrblock with h1 | h1
  · rcases List.mem_append.1 h1 with h2 | h2
    · rw [List.eq_of_mem_replicate h2]; rfl
    · rw [List.eq_of_mem_replicate h2]; rfl
  · rw [List.eq_of_mem_replicate h1]; rfl

/-- Claim C2 witness at the example input. -/
theorem output_rows_one_cond_witness : exactlyOneCond (lowRow "Day3") = true :=
  @output_rows_one_cond exLow exMid exHigh exOut (by decide) (lowRow "Day3") (by decide)

/-- Claim C3: the filter keeps exactly those rows of the raw table where
(the sex column equals the selector, or no selector was given) and (the
exclude column is absent, or its value is not 1) and (the temp column
equals the given condition constant); in particular a row with
exclude == 1 never satisfies the selection predicate for any condition. -/
theorem filter_rows_spec {dt : Table} {ws : Option String} {l m h : Table}
    (hx : filter_datatable dt ws = .ok (l, m, h)) :
    (l.rows = (dt.rows.filter (fun r => specKeep dt ws lowTemp r)).map
        (selectCols (eggsFreeCols dt.cols))
      ∧ m.rows = (dt.rows.filter (fun r => specKeep dt ws midTemp r)).map
        (selectCols (eggsFreeCols dt.cols))
      ∧ h.rows = (dt.rows.filter (fun r => specKeep dt ws highTemp r)).map
        (selectCols (eggsFreeCols dt.cols)))
    ∧ ∀ r ∈ dt.rows, dt.cols.contains "exclude" = true →
        getCell r "exclude" = Cell.num 1 →
        specKeep dt ws lowTemp r = false ∧ specKeep dt ws midTemp r = false ∧
          specKeep dt ws highTemp r = false := by
  obtain ⟨hl, hm, hh⟩ := filter_ok_eq hx
  subst hl; subst hm; subst hh
  constructor
  · refine ⟨?_, ?_, ?_⟩ <;>
      simp only [selectTemp] <;>
      rw [List.filter_congr (fun r _ => rowKeep_eq_specKeep dt ws _ r)]
  · intro r _ hcont hone
    refine ⟨?_, ?_, ?_⟩ <;>
      · unfold specKeep
        rw [hcont, hone]
        simp

/-- Claim C3 witness at the example input. -/
theorem filter_rows_spec_witness :
    exLow.rows = (exTable.rows.filter (fun r => specKeep exTable none lowTemp r)).map
      (selectCols (eggsFreeCols exTable.cols)) :=
  (@filter_rows_spec exTable none exLow exMid exHigh (by decide)).1.1

/-- Claim C4: the output rows are grouped by day-column in the order the
day-columns appear in the low-condition table, and within each day all
low-condition rows come first, then all mid-condition rows, then all
high-condition rows, each count expanded into that many identical rows. -/
theorem output_rows_ordering {l m h out : Table}
    (hc : convert_datatable l m h = .ok out) :
    out.rows = ((dayCols l).map (fun day =>
      List.replicate (dayCount l day) (lowRow day)
        ++ List.replicate (dayCount m day) (midRow day)
        ++ List.replicate (dayCount h day) (highRow day))).flatten :=
  (convert_ok_eq hc).2

/-- Claim C4 witness at the example input. -/
theorem output_rows_ordering_witness :
    exOut.rows = ((dayCols exLow).map (fun day =>
      List.replicate (dayCount exLow day) (lowRow day)
        ++ List.replicate (dayCount exMid day) (midRow day)
        ++ List.replicate (dayCount exHigh day) (highRow day))).flatten :=
  @output_rows_ordering exLow exMid exHigh exOut (by decide)

/-- Claim C5: on the concrete two-row example input, with no sex filter,
the pipeline produces exactly four output rows: for time "3", two rows
with column "23" set to 1 and one row with column "30" set to 1; for time
"4", one row with column "23" set to 1. -/
theorem example_pipeline :
    runPipeline exTable none = .ok
      { cols := ["time", "23", "30", "37"],
        rows := [
          [("time", Cell.str "3"), ("23", Cell.num 1), ("30", Cell.str ""), ("37", Cell.str "")],
          [("time", Cell.str "3"), ("23", Cell.num 1), ("30", Cell.str ""), ("37", Cell.str "")],
          [("time", Cell.str "3"), ("23", Cell.str ""), ("30", Cell.num 1), ("37", Cell.str "")],
          [("time", Cell.str "4"), ("23", Cell.num 1), ("30", Cell.str ""), ("37", Cell.str "")]] } := by
  decide

/-- Claim C6: no column whose name contains the substring "eggs" appears
in any of the three filtered tables, nor in the expanded output table. -/
theorem no_eggs_columns {dt : Table} {ws : Option String} {l m h out : Table}
    (hf : filter_datatable dt ws = .ok (l, m, h))
    (hc : convert_datatable l m h = .ok out) :
    (∀ cn ∈ l.cols, hasEggs cn = false) ∧ (∀ cn ∈ m.cols, hasEggs cn = false)
      ∧ (∀ cn ∈ h.cols, hasEggs cn = false) ∧ (∀ cn ∈ out.cols, hasEggs cn = false) := by
  obtain ⟨hl, hm, hh⟩ := filter_ok_eq hf
  subst hl; subst hm; subst hh
  obtain ⟨hcols, -⟩ := convert_ok_eq hc
  refine ⟨?_, ?_, ?_, ?_⟩
  · intro cn hcn
    have := (List.mem_filter.1 hcn).2
    simpa using this
  · intro cn hcn
    have := (List.mem_filter.1 hcn).2
    simpa using this
  · intro cn hcn
    have := (List.mem_filter.1 hcn).2
    simpa using this
  · intro cn hcn
    rw [hcols] at hcn
    have hor : cn = "time" ∨ cn = toString lowTemp ∨ cn = toString midTemp ∨
        cn = toString highTemp := by
      simpa [newTableCols] using hcn
    rcases hor with rfl | rfl | rfl | rfl <;> rfl

/-- Claim C6 witness at the example input. -/
theorem no_eggs_columns_witness : hasEggs "time" = false :=
  (@no_eggs_columns exTable none exLow exMid exHigh exOut
    (by decide) (by decide)).2.2.2 "time" (by decide)

/-- When a table's rows are empty and the column is present, the column
sum is 0. -/
theorem sumColumn_nil_rows {t : Table} {cn : String}
    (hc : t.cols.contains cn = true) (hr : t.rows = []) :
    sumColumn t cn = .ok 0 := by
  unfold sumColumn getColumn
  rw [hc, hr]
  rfl

/-- Expansion over any day list yields no rows when all three tables have
no rows and every listed day-column is present in all three tables. -/
theorem convertRows_nil_rows {l m h : Table} {days : List String}
    (hsub : ∀ d ∈ days, l.cols.contains d = true ∧ m.cols.contains d = true ∧
      h.cols.contains d = true)
    (hl : l.rows = []) (hm : m.rows = []) (hh : h.rows = []) :
    convertRows l m h days = .ok [] := by
  induction days with
  | nil => rfl
  | cons day rest ih =>
    obtain ⟨h1, h2, h3⟩ := hsub day (List.mem_cons_self day rest)
    unfold convertRows rowsForDay
    rw [sumColumn_nil_rows h1 hl, sumColumn_nil_rows h2 hm, sumColumn_nil_rows h3 hh,
      ih (fun d hd => hsub d (List.mem_cons_of_mem day hd))]
    rfl

/-- Membership in a string list implies the boolean `contains` test. -/
theorem contains_of_mem {a : String} {cols : List String} (hmem : a ∈ cols) :
    cols.contains a = true := by
  simpa [List.contains, List.elem_iff] using hmem

/-- Claim C7: when the input table has a sex column (and the required temp
column), and the sex filter string matches no row, filtering followed by
expansion succeeds without error and the expanded output table has zero
rows. -/
theorem sex_no_match_empty {dt : Table} {s : String}
    (hsex : dt.cols.contains "sex" = true)
    (htemp : dt.cols.contains "temp" = true)
    (hno : ∀ r ∈ dt.rows, ¬ getCell r "sex" = Cell.str s) :
    ∃ l m h out,
      filter_datatable dt (some s) = .ok (l, m, h) ∧
      convert_datatable l m h = .ok out ∧ out.rows = [] := by
  have hfil : ∀ t : Int, dt.rows.filter (fun r => rowKeep dt (some s) t r) = [] := by
    intro t
    apply List.filter_eq_nil_iff.2
    intro r hr
    have hbeq : (getCell r "sex" == Cell.str s) = false :=
      beq_eq_false_iff_ne.2 (hno r hr)
    simp [rowKeep, hbeq]
  have hrows : ∀ t : Int, (selectTemp dt (some s) t).rows = [] := by
    intro t
    simp only [selectTemp]
    rw [hfil t]
    rfl
  refine ⟨selectTemp dt (some s) lowTemp, selectTemp dt (some s) midTemp,
    selectTemp dt (some s) highTemp, { cols := newTableCols, rows := [] }, ?_, ?_, rfl⟩
  · have hs' : "sex" ∈ dt.cols := by simpa [List.contains, List.elem_iff] using hsex
    have ht' : "temp" ∈ dt.cols := by simpa [List.contains, List.elem_iff] using htemp
    simp [filter_datatable, hs', ht']
  · have hsub : ∀ d ∈ dayCols (selectTemp dt (some s) lowTemp),
        (selectTemp dt (some s) lowTemp).cols.contains d = true ∧
        (selectTemp dt (some s) midTemp).cols.contains d = true ∧
        (selectTemp dt (some s) highTemp).cols.contains d = true := by
      intro d hd
      have hmem : d ∈ (selectTemp dt (some s) lowTemp).cols := (List.mem_filter.1 hd).1
      exact ⟨contains_of_mem hmem, contains_of_mem hmem, contains_of_mem hmem⟩
    unfold convert_datatable
    rw [convertRows_nil_rows hsub (hrows lowTemp) (hrows midTemp) (hrows highTemp)]

/-- Claim C7 witness at the example input with the unmatched sex value
"X". -/
theorem sex_no_match_empty_witness :
    ∃ l m h out,
      filter_datatable exTable (some "X") = .ok (l, m, h) ∧
      convert_datatable l m h = .ok out ∧ out.rows = [] :=
  @sex_no_match_empty exTable "X" (by decide) (by decide) (by decide)

/-- Claim C8: every output row emitted for a day-column has its time field
equal to the (single) last character of the day-column's name. -/
theorem time_field_last_char {l m h : Table} {day : String} {rs : List Row}
    (hr : rowsForDay l m h day = .ok rs) :
    ∀ r ∈ rs, getCell r "time" = Cell.str (String.singleton (lastChar day)) := by
  intro r hmem
  rw [rowsForDay_ok_eq hr] at hmem
  rcases List.mem_append.1 hmem with h1 | h1
  · rcases List.mem_append.1 h1 with h2 | h2
    · rw [List.eq_of_mem_replicate h2]; rfl
    · rw [List.eq_of_mem_replicate h2]; rfl
  · rw [List.eq_of_mem_replicate h1]; rfl

/-- Claim C8 witness on the example low/mid/high tables at day-column
"Day3". -/
theorem time_field_last_char_witness :
    getCell (lowRow "Day3") "time" = Cell.str (String.singleton (lastChar "Day3")) :=
  @time_field_last_char exLow exMid exHigh "Day3"
    [lowRow "Day3", lowRow "Day3", midRow "Day3"] (by decide) (lowRow "Day3") (by decide)

/-- Claim C9: the core pipeline is deterministic; running filter then
expand on equal input tables and equal sex-filter values produces equal
output tables. -/
theorem pipeline_deterministic {dt1 dt2 : Table} {ws1 ws2 : Option String}
    (hdt : dt1 = dt2) (hws : ws1 = ws2) :
    runPipeline dt1 ws1 = runPipeline dt2 ws2 := by
  rw [hdt, hws]

/-- Claim C9 witness at the example input. -/
theorem pipeline_deterministic_witness :
    runPipeline exTable none = runPipeline exTable none :=
  @pipeline_deterministic exTable exTable none none rfl rfl

/-- Claim C10: the three tables returned by the filter have the identical
column list (the raw table's columns minus those containing "eggs"), so
every day-column of the low-condition table exists in the mid- and
high-condition tables, making the day-column-misalignment failure
unreachable for tables produced by the filter. -/
theorem filtered_cols_aligned {dt : Table} {ws : Option String} {l m h : Table}
    (hf : filter_datatable dt ws = .ok (l, m, h)) :
    l.cols = m.cols ∧ m.cols = h.cols ∧ l.cols = eggsFreeCols dt.cols ∧
      ∀ day ∈ dayCols l, l.cols.contains day = true ∧ m.cols.contains day = true ∧
        h.cols.contains day = true := by
  obtain ⟨hl, hm, hh⟩ := filter_ok_eq hf
  subst hl; subst hm; subst hh
  refine ⟨rfl, rfl, rfl, ?_⟩
  intro day hday
  have hmem : day ∈ (selectTemp dt ws lowTemp).cols := (List.mem_filter.1 hday).1
  exact ⟨contains_of_mem hmem, contains_of_mem hmem, contains_of_mem hmem⟩

/-- Claim C10 witness at the example input. -/
theorem filtered_cols_aligned_witness : exLow.cols = exMid.cols :=
  (@filtered_cols_aligned exTable none exLow exMid exHigh (by decide)).1
